import Mathlib

/-!
Verification of the identifier normalization and repair engine of
`src/app.py` (AI-Prompt-Architecture-Diagram).

Strings are modelled as `List Char` (the program only handles ASCII
identifiers and source text, so Python's Unicode-aware `str.lower` and
`\w` coincide with the ASCII versions used here).  Python's
`str.replace(old, new)` and `re.sub` with a literal pattern both replace
every occurrence, scanning left to right and never rescanning replaced
text; both are modelled by `replaceL`.  `re.sub(rf'\b{old}\b', new, s)`
for an identifier `old` is modelled by `wordReplace`.  The recursions use
an explicit fuel equal to the input length so that every definition is
structural and kernel-reducible.
-/

/-- ASCII lower-casing, Python `str.lower()` on the ASCII texts involved. -/
def lower (s : List Char) : List Char := s.map Char.toLower

/-- Python regex word character `\\w` (ASCII): letters, digits, underscore. -/
def isWordChar (c : Char) : Bool := c.isAlphanum || c == '_'

/-- Characters allowed in a Python identifier (ASCII model). -/
def isIdentChar (c : Char) : Bool := c.isAlphanum || c == '_'

/-- Characters allowed in a dotted module path. -/
def isModuleChar (c : Char) : Bool := isIdentChar c || c == '.'

/-- `a.isPrefixOf s` for character lists.  This and the other scanning
recursions below are written with the bare recursors `List.rec`/`Nat.rec`
rather than the equation compiler, so that kernel evaluation of the
exhaustive checks is linear (the `brecOn` scheme produced by pattern
matching builds quadratic towers when reduced by the kernel). -/
def isPrefixOfL (a s : List Char) : Bool :=
  (List.rec (motive := fun _ => List Char → Bool)
    (fun _ => true)
    (fun x _ ih s => match s with
      | [] => false
      | c :: t => x == c && ih t)
    a) s

/-- Python `a in s` substring test. -/
def isSubstr (a : List Char) (s : List Char) : Bool :=
  List.rec (motive := fun _ => Bool)
    a.isEmpty
    (fun c t ih => isPrefixOfL a (c :: t) || ih)
    s

/-- `re.sub(r'(.)\\1+', r'\\1', s)`: collapse every maximal run of a repeated
character to a single occurrence.  `.` does not match a newline, so runs of
newlines are kept. -/
def collapseRuns (s : List Char) : List Char :=
  List.rec (motive := fun _ => List Char)
    []
    (fun a rest ih => match rest with
      | [] => [a]
      | b :: _ => if a = b ∧ a ≠ '\n' then ih else a :: ih)
    s

/-- Fuel-driven core of `replaceL`; the fuel always dominates the length of
the remaining text, so the `0` case is never reached on real inputs. -/
def replaceAux (a b : List Char) (fuel : Nat) : List Char → List Char :=
  Nat.rec (motive := fun _ => List Char → List Char)
    (fun s => s)
    (fun _ ih s => match s with
      | [] => []
      | c :: t =>
        if isPrefixOfL a (c :: t) then b ++ ih ((c :: t).drop a.length)
        else c :: ih t)
    fuel

/-- Python `s.replace(a, b)` (also `re.sub` with the literal pattern `a`):
replace every occurrence of `a` in `s` by `b`, scanning left to right,
without rescanning replaced text. -/
def replaceL (a b s : List Char) : List Char := replaceAux a b s.length s

/-- Is the head of the remaining text a word character? -/
def headIsWord : List Char → Bool
  | [] => false
  | c :: _ => isWordChar c

/-- Does `re.sub(rf'\\b{a}\\b', ...)` match at the current position?  `wb`
records whether the character just before this position is a word
character.  `a` is always a nonempty identifier here, so `\\b` on each side
amounts to the neighbouring character (if any) not being a word character. -/
def wordMatchAt (a : List Char) (wb : Bool) (s : List Char) : Bool :=
  !a.isEmpty && isPrefixOfL a s && !wb && !headIsWord (s.drop a.length)

/-- Fuel-driven core of `wordReplace`. -/
def wordReplaceAux (a b : List Char) (wb0 : Bool) (fuel : Nat) (s0 : List Char) : List Char :=
  (Nat.rec (motive := fun _ => Bool → List Char → List Char)
    (fun _ s => s)
    (fun _ ih wb s => match s with
      | [] => []
      | c :: t =>
        if wordMatchAt a wb (c :: t) then
          b ++ ih (isWordChar (a.getLastD ' ')) ((c :: t).drop a.length)
        else
          c :: ih (isWordChar c) t)
    fuel) wb0 s0

/-- `re.sub(rf'\\b{re.escape(a)}\\b', b, s)` for an identifier `a`: replace
every occurrence of `a` that stands as a whole word.  Scanning happens on
the original text, as in Python's `re`. -/
def wordReplace (a b s : List Char) : List Char := wordReplaceAux a b false s.length s

/-- Scanning companion of `wordReplaceAux`: is there a word-bounded
occurrence of `a` anywhere in the text (given what precedes it)? -/
def hasWordOccurAux (a : List Char) (wb0 : Bool) (s0 : List Char) : Bool :=
  (List.rec (motive := fun _ => Bool → Bool)
    (fun _ => false)
    (fun c t ih wb => wordMatchAt a wb (c :: t) || ih (isWordChar c))
    s0) wb0

/-- Is there a whole-word occurrence of the identifier `a` in `s`? -/
def hasWordOccur (a s : List Char) : Bool := hasWordOccurAux a false s

/-- Split a list on a separator character (Python `str.split(sep)`). -/
def splitOnChar (sep : Char) (s : List Char) : List (List Char) :=
  List.rec (motive := fun _ => List (List Char))
    [[]]
    (fun c _ ih => match ih with
      | [] => [[c]]
      | h :: r => if c = sep then [] :: h :: r else (c :: h) :: r)
    s

/-- Strip leading and trailing spaces (Python `str.strip()` on these texts). -/
def trimSpaces (l : List Char) : List Char :=
  ((l.dropWhile (fun c => c = ' ')).reverse.dropWhile (fun c => c = ' ')).reverse

/-- `AVAILABLE_COMPONENTS` of `src/app.py`: the Vocabulary Registry, an
ordered mapping from module namespaces to their valid component symbols. -/
def AVAILABLE_COMPONENTS : List (String × List String) := [
  ("diagrams.aws.compute", ["EC2", "Lambda", "ECS", "EKS", "Batch", "Fargate", "ElasticBeanstalk"]),
  ("diagrams.aws.database", ["RDS", "Dynamodb", "Aurora", "Elasticache", "ElastiCache",
                             "DocumentdbMongodbCompatibility", "Neptune", "Redshift", "Timestream"]),
  ("diagrams.aws.network", ["ELB", "ALB", "NLB", "CloudFront", "Route53", "APIGateway",
                            "VPC", "DirectConnect", "CloudMap"]),
  ("diagrams.aws.storage", ["S3", "EBS", "EFS", "Backup", "StorageGateway", "Fsx"]),
  ("diagrams.aws.integration", ["SQS", "SNS", "StepFunctions", "Eventbridge", "MQ",
                                "Appsync", "ExpressWorkflows"]),
  ("diagrams.onprem.client", ["User", "Client"]),
  ("diagrams.onprem.database", ["PostgreSQL", "MySQL", "MongoDB", "Cassandra", "Mariadb"]),
  ("diagrams.onprem.inmemory", ["Redis", "Memcached"]),
  ("diagrams.onprem.queue", ["Kafka", "RabbitMQ", "Celery", "Activemq"]),
  ("diagrams.onprem.monitoring", ["Prometheus", "Grafana", "Datadog", "Splunk"]),
  ("diagrams.programming.framework", ["React", "Django", "FastAPI", "Spring", "Flask"]),
  ("diagrams.programming.language", ["Python", "Java", "NodeJS", "Go", "Javascript"]),
  ("diagrams.k8s.compute", ["Pod", "Deployment", "StatefulSet", "Job", "DaemonSet"]),
  ("diagrams.k8s.network", ["Ingress", "Service"]),
  ("diagrams.k8s.storage", ["PV", "PVC", "StorageClass"])]

/-- The Vocabulary Registry over `List Char`. -/
def registryL : List (List Char × List (List Char)) :=
  AVAILABLE_COMPONENTS.map (fun p => (p.1.toList, p.2.map String.toList))

/-- `NAMING_FIXES` of `src/app.py`: the literal correction table, in the
source's (insertion) order; each entry is applied with `str.replace`. -/
def NAMING_FIXES : List (String × String) := [
  ("DynamoDB", "Dynamodb"),
  ("ElastiCache", "Elasticache"),
  ("EventBridge", "Eventbridge"),
  ("StepFunction", "StepFunctions"),
  ("StepFunctionss", "StepFunctions"),
  ("Users", "User"),
  ("Clients", "Client"),
  ("NodeJS", "NodeJS"),
  ("APIGateway", "APIGateway"),
  ("Api_Gateway", "APIGateway"),
  ("ApiGateway", "APIGateway"),
  ("ElasticCache", "Elasticache"),
  ("DynamoDb", "Dynamodb"),
  ("from diagrams.onprem.client import Users", "from diagrams.onprem.client import User"),
  ("from diagrams.onprem.client import Clients", "from diagrams.onprem.client import Client"),
  ("from diagrams.aws.database import DynamoDB", "from diagrams.aws.database import Dynamodb"),
  ("from diagrams.aws.database import ElastiCache", "from diagrams.aws.database import Elasticache"),
  ("from diagrams.aws.integration import EventBridge", "from diagrams.aws.integration import Eventbridge"),
  ("from diagrams.aws.integration import StepFunction", "from diagrams.aws.integration import StepFunctions"),
  ("from diagrams.aws.integration import StepFunctionss", "from diagrams.aws.integration import StepFunctions")]

/-- `import_patterns` of `validate_and_fix_imports`: the pattern correction
rules.  Every pattern is a regex without metacharacters, so `re.sub`
replaces each literal occurrence. -/
def import_patterns : List (String × String) := [
  ("StepFunctionss", "StepFunctions"),
  ("Stepfunctions", "StepFunctions"),
  ("stepfunctions", "StepFunctions"),
  ("DynamoDb", "Dynamodb"),
  ("ElasticCache", "Elasticache"),
  ("ApiGateway", "APIGateway")]

/-- The first phase of `validate_and_fix_imports`: apply every entry of
`NAMING_FIXES`, in table order, by plain string replacement. -/
def applyNamingFixes (code : List Char) : List Char :=
  NAMING_FIXES.foldl (fun c p => replaceL p.1.toList p.2.toList c) code

/-- The second phase of `validate_and_fix_imports`: apply every
`import_patterns` rule, in order, with `re.sub`. -/
def applyImportPatterns (code : List Char) : List Char :=
  import_patterns.foldl (fun c p => replaceL p.1.toList p.2.toList c) code

/-- `find_similar_component(name, available_components)` of `src/app.py`:
the Similarity Resolver.  Each `for component in available_components:
if cond: return component` loop is a `List.find?`. -/
def find_similar_component (name : List Char) (avail : List (List Char)) : Option (List Char) :=
  match avail.find? (fun component => lower name == lower component) with
  | some component => some component
  | none =>
    match avail.find? (fun component =>
        isSubstr (lower name) (lower component) || isSubstr (lower component) (lower name)) with
    | some component => some component
    | none =>
      match (if collapseRuns name ≠ name then
               avail.find? (fun component => lower (collapseRuns name) == lower component)
             else none) with
      | some component => some component
      | none =>
        if 2 < name.length then
          avail.find? (fun component => lower name.dropLast == lower component)
        else none

/-- The Similarity Resolver as the spec's §4.4 words it: four heuristics
tried in order — exact case-insensitive match, substring containment in
either direction (first valid symbol in registry order wins),
doubled-character collapse followed by a case-insensitive retry, and (for
names longer than 2) trailing-character trim followed by a
case-insensitive retry — stopping at the first success. -/
def resolverSpec (name : List Char) (avail : List (List Char)) : Option (List Char) :=
  match avail.find? (fun component => lower name == lower component) with
  | some component => some component
  | none =>
    match avail.find? (fun component =>
        isSubstr (lower name) (lower component) || isSubstr (lower component) (lower name)) with
    | some component => some component
    | none =>
      match avail.find? (fun component => lower (collapseRuns name) == lower component) with
      | some component => some component
      | none =>
        if 2 < name.length then
          avail.find? (fun component => lower name.dropLast == lower component)
        else none

/-- Modelled from the spec: the Import Scanner of §4.3.  `src/app.py`
delegates parsing to Python's external `ast` module (`ast.parse` plus a
walk collecting `ImportFrom` nodes), which is not part of this repository;
per the spec the scanner extracts every `from NAMESPACE import SYMBOL
[, SYMBOL...]` declaration of one line, and fails ("scan unavailable",
here `none`) when such a declaration is malformed.  Lines that are not
`from`-declarations are outside the scanner's narrow grammar and are
passed over. -/
def lineImports (line : List Char) : Option (List (List Char × List Char)) :=
  let t := line.dropWhile (fun c => c = ' ')
  if isPrefixOfL ("from ".toList) t then
    let r1 := (t.drop 5).dropWhile (fun c => c = ' ')
    let m := r1.takeWhile isModuleChar
    let r2 := (r1.drop m.length).dropWhile (fun c => c = ' ')
    if m.isEmpty then none
    else if isPrefixOfL ("import".toList) r2 then
      let names := (splitOnChar ',' ((r2.drop 6).dropWhile (fun c => c = ' '))).map trimSpaces
      if names.all (fun n => !n.isEmpty && n.all isIdentChar) then
        some (names.map (fun n => (m, n)))
      else none
    else none
  else some []

/-- Modelled from the spec: scan a whole source text, line by line; any
malformed `from`-declaration makes the whole scan unavailable (`none`),
otherwise the `(namespace, symbolAsWritten)` pairs are produced in source
order, as `ast.walk` yields them. -/
def pyScanL (code : List Char) : Option (List (List Char × List Char)) :=
  (splitOnChar '\n' code).foldl
    (fun acc line =>
      match acc, lineImports line with
      | some l, some l2 => some (l ++ l2)
      | _, _ => none)
    (some [])

/-- The import-validation loop of `validate_and_fix_imports`: for every
scanned `(module, component)` pair whose module starts with `diagrams.`
and is a registry key, an invalid component that the Similarity Resolver
can resolve contributes the pair `(component, similar)` to
`imports_to_fix`. -/
def collectFixes (imps : List (List Char × List Char)) : List (List Char × List Char) :=
  imps.filterMap (fun mc =>
    if isPrefixOfL ("diagrams.".toList) mc.1 then
      match registryL.lookup mc.1 with
      | some comps =>
        if comps.contains mc.2 then none
        else
          match find_similar_component mc.2 comps with
          | some similar => some (mc.2, similar)
          | none => none
      | none => none
    else none)

/-- Applying one `imports_to_fix` entry, as the source does: first
`code.replace(f'import {old}', f'import {new}')`, then
`re.sub(rf'\b{re.escape(old)}\b', new, code)`. -/
def applyFix (code : List Char) (fix : List Char × List Char) : List Char :=
  wordReplace fix.1 fix.2
    (replaceL (("import ".toList) ++ fix.1) (("import ".toList) ++ fix.2) code)

/-- `validate_and_fix_imports(code)` of `src/app.py`, the Repair Engine:
literal correction table, then pattern correction rules, then (when the
scan succeeds) every collected fix applied in order; on scan failure the
corrected text is returned as-is (the `except SyntaxError` branch). -/
def validate_and_fix_imports (code : List Char) : List Char :=
  match pyScanL (applyImportPatterns (applyNamingFixes code)) with
  | some imps =>
    (collectFixes imps).foldl applyFix (applyImportPatterns (applyNamingFixes code))
  | none => applyImportPatterns (applyNamingFixes code)

/-- One symbol being reachable from another by a single resolver
transformation, in the sense of claim C4: case-insensitive equality,
doubled-character-run collapse followed by case-insensitive comparison, or
(for symbols longer than 2) trailing-character trim followed by
case-insensitive comparison. -/
def withinOneTransformation (s1 s2 : List Char) : Bool :=
  (lower s1 == lower s2) ||
  (lower (collapseRuns s1) == lower s2) ||
  (decide (2 < s1.length) && (lower s1.dropLast == lower s2))

theorem isSubstr_cons (a : List Char) (c : Char) (t : List Char) :
    isSubstr a (c :: t) = (isPrefixOfL a (c :: t) || isSubstr a t) := rfl

theorem replaceAux_succ_cons (a b : List Char) (n : Nat) (c : Char) (t : List Char) :
    replaceAux a b (n + 1) (c :: t) =
      if isPrefixOfL a (c :: t) then b ++ replaceAux a b n ((c :: t).drop a.length)
      else c :: replaceAux a b n t := rfl

theorem hasWordOccurAux_cons (a : List Char) (wb : Bool) (c : Char) (t : List Char) :
    hasWordOccurAux a wb (c :: t) =
      (wordMatchAt a wb (c :: t) || hasWordOccurAux a (isWordChar c) t) := rfl

theorem wordReplaceAux_succ_cons (a b : List Char) (wb : Bool) (n : Nat) (c : Char) (t : List Char) :
    wordReplaceAux a b wb (n + 1) (c :: t) =
      if wordMatchAt a wb (c :: t) then
        b ++ wordReplaceAux a b (isWordChar (a.getLastD ' ')) n ((c :: t).drop a.length)
      else c :: wordReplaceAux a b (isWordChar c) n t := rfl

theorem replaceAux_of_no_substr (a b : List Char) :
    ∀ (n : Nat) (s : List Char), isSubstr a s = false → replaceAux a b n s = s := by
  intro n
  induction n with
  | zero => intro s _; rfl
  | succ n ih =>
    intro s h
    cases s with
    | nil => rfl
    | cons c t =>
      rw [isSubstr_cons] at h
      rcases Bool.or_eq_false_iff.mp h with ⟨h1, h2⟩
      rw [replaceAux_succ_cons, if_neg (by simp [h1]), ih t h2]

theorem replaceL_of_no_substr (a b s : List Char) (h : isSubstr a s = false) :
    replaceL a b s = s :=
  replaceAux_of_no_substr a b s.length s h

theorem wordReplaceAux_of_no_occur (a b : List Char) :
    ∀ (n : Nat) (wb : Bool) (s : List Char), hasWordOccurAux a wb s = false →
      wordReplaceAux a b wb n s = s := by
  intro n
  induction n with
  | zero => intro wb s _; rfl
  | succ n ih =>
    intro wb s h
    cases s with
    | nil => rfl
    | cons c t =>
      rw [hasWordOccurAux_cons] at h
      rcases Bool.or_eq_false_iff.mp h with ⟨h1, h2⟩
      rw [wordReplaceAux_succ_cons, if_neg (by simp [h1]), ih (isWordChar c) t h2]

/-- Claim C3 (confirmed): `find_similar_component` implements exactly the
spec's four-heuristic cascade — case-insensitive match, then substring
containment (first valid symbol in registry order), then doubled-run
collapse with a case-insensitive retry, then (for names longer than 2)
trailing-character trim with a case-insensitive retry — returning the
first success and `none` exactly when all four fail.  (The source guards
the collapse retry by `cleaned_name != name`; when the collapse changes
nothing that retry coincides with the already-failed first heuristic, so
the guard does not change the result.) -/
theorem claim_C3 (name : List Char) (avail : List (List Char)) :
    find_similar_component name avail = resolverSpec name avail := by
  unfold find_similar_component resolverSpec
  by_cases hg : collapseRuns name = name
  · rw [if_neg (fun hne => hne hg), hg]
    cases h1 : avail.find? (fun component => lower name == lower component) with
    | some c => rfl
    | none =>
      cases h2 : avail.find? (fun component =>
          isSubstr (lower name) (lower component) || isSubstr (lower component) (lower name)) with
      | some c => rfl
      | none => rfl
  · rw [if_pos hg]

/-- Claim C10 (confirmed): whatever `find_similar_component` returns, it is
`none` or an element of the supplied valid-symbol list, so every rewrite
the repair engine applies substitutes a registry-valid symbol. -/
theorem claim_C10 (name : List Char) (avail : List (List Char)) (r : List Char)
    (h : find_similar_component name avail = some r) : r ∈ avail := by
  unfold find_similar_component at h
  split at h
  next c h1 =>
    cases h
    exact List.mem_of_find?_eq_some h1
  next h1 =>
    split at h
    next c h2 =>
      cases h
      exact List.mem_of_find?_eq_some h2
    next h2 =>
      split at h
      next c h3 =>
        cases h
        split at h3
        · exact List.mem_of_find?_eq_some h3
        · exact Option.noConfusion h3
      next h3 =>
        split at h
        · exact List.mem_of_find?_eq_some h
        · exact Option.noConfusion h

/-- Witness for C10 at a concrete input: resolving the miscased `Ec2`
against the compute namespace yields `EC2`, a member of that namespace. -/
theorem claim_C10_witness :
    ("EC2".toList) ∈ (["EC2", "Lambda", "ECS", "EKS", "Batch", "Fargate",
      "ElasticBeanstalk"].map String.toList) :=
  claim_C10 ("Ec2".toList) _ _ (by decide)

/-- Claim C4 (counterexample): the Vocabulary Registry itself violates the
one-transformation separation.  `Elasticache` and `ElastiCache` are two
distinct valid symbols of `diagrams.aws.database` that are case-insensitively
equal, and in `diagrams.k8s.storage` trimming the last character of the
valid symbol `PVC` (length 3 > 2) yields the valid symbol `PV`. -/
theorem claim_C4_counterexample :
    ("Elasticache".toList) ∈ ((registryL.lookup ("diagrams.aws.database".toList)).getD []) ∧
    ("ElastiCache".toList) ∈ ((registryL.lookup ("diagrams.aws.database".toList)).getD []) ∧
    "Elasticache".toList ≠ "ElastiCache".toList ∧
    lower ("Elasticache".toList) = lower ("ElastiCache".toList) ∧
    ("PVC".toList) ∈ ((registryL.lookup ("diagrams.k8s.storage".toList)).getD []) ∧
    ("PV".toList) ∈ ((registryL.lookup ("diagrams.k8s.storage".toList)).getD []) ∧
    2 < ("PVC".toList).length ∧
    lower (("PVC".toList).dropLast) = lower ("PV".toList) := by decide!

/-- Claim C4 (corrected): except for the case-duplicate pair
`Elasticache`/`ElastiCache` in `diagrams.aws.database` and the pair
`(PVC, PV)` in `diagrams.k8s.storage` (trimming `PVC` yields `PV`), no two
distinct valid symbols in the same namespace are within one resolver
transformation of each other (case-insensitive equality, doubled-run
collapse, or trailing-character trim for symbols longer than 2). -/
theorem claim_C4 :
    ∀ p ∈ registryL, ∀ s1 ∈ p.2, ∀ s2 ∈ p.2, s1 ≠ s2 →
      ¬(s1 = "Elasticache".toList ∧ s2 = "ElastiCache".toList) →
      ¬(s1 = "ElastiCache".toList ∧ s2 = "Elasticache".toList) →
      ¬(s1 = "PVC".toList ∧ s2 = "PV".toList) →
      withinOneTransformation s1 s2 = false := by decide!

/-- Witness for C4 at a concrete pair: `EC2` and `Lambda` of
`diagrams.aws.compute` are not within one transformation of each other. -/
theorem claim_C4_witness :
    withinOneTransformation ("EC2".toList) ("Lambda".toList) = false :=
  claim_C4
    (("diagrams.aws.compute".toList),
      (["EC2", "Lambda", "ECS", "EKS", "Batch", "Fargate", "ElasticBeanstalk"].map String.toList))
    (by decide) _ (by decide) _ (by decide) (by decide) (by decide) (by decide) (by decide)

/-- Claim C1 (counterexample): `ElastiCache` is itself a valid symbol of
`diagrams.aws.database`, yet the literal correction table rewrites it, so
repair does not leave the reference `from diagrams.aws.database import
ElastiCache` unchanged — it becomes `... import Elasticache`. -/
theorem claim_C1_counterexample :
    ("ElastiCache".toList) ∈ ((registryL.lookup ("diagrams.aws.database".toList)).getD []) ∧
    validate_and_fix_imports ("from diagrams.aws.database import ElastiCache".toList) ≠
      ("from diagrams.aws.database import ElastiCache".toList) ∧
    validate_and_fix_imports ("from diagrams.aws.database import ElastiCache".toList) =
      ("from diagrams.aws.database import Elasticache".toList) := by decide!

/-- Claim C1 (corrected): for every namespace `n` and valid symbol `s` of
the Vocabulary Registry other than `ElastiCache` (which the literal table
rewrites to `Elasticache`), repair leaves the reference
`from n import s` unchanged: such valid references are a fixpoint of the
repair transformation.  (The original "any source text" form also fails
for other reasons — another symbol's `import {old}` literal replacement
can corrupt an adjacent valid reference, see C5/C9 — so the fixpoint
statement is for a reference standing in its declaration form.) -/
theorem claim_C1 :
    ∀ p ∈ registryL, ∀ s ∈ p.2, s ≠ "ElastiCache".toList →
      validate_and_fix_imports (("from ".toList) ++ p.1 ++ (" import ".toList) ++ s) =
        ("from ".toList) ++ p.1 ++ (" import ".toList) ++ s := by decide!

/-- Witness for C1 at a concrete input: the valid reference
`from diagrams.aws.compute import EC2` is left unchanged by repair. -/
theorem claim_C1_witness :
    validate_and_fix_imports ("from diagrams.aws.compute import EC2".toList) =
      ("from diagrams.aws.compute import EC2".toList) :=
  claim_C1
    (("diagrams.aws.compute".toList),
      (["EC2", "Lambda", "ECS", "EKS", "Batch", "Fargate", "ElasticBeanstalk"].map String.toList))
    (by decide) ("EC2".toList) (by decide) (by decide)

/-- Claim C2 (code bug): repair is not idempotent.  On `Userss` the literal
entry `Users → User` consumes the first occurrence, yielding `Users`; a
second repair fires the same entry again and yields `User`.  So
`repair (repair x) ≠ repair x` at `x = "Userss"`, violating the spec's
explicit idempotence requirement. -/
theorem claim_C2_bug :
    validate_and_fix_imports ("Userss".toList) = "Users".toList ∧
    validate_and_fix_imports ("Users".toList) = "User".toList ∧
    validate_and_fix_imports (validate_and_fix_imports ("Userss".toList)) ≠
      validate_and_fix_imports ("Userss".toList) := by decide!

/-- Claim C5 (counterexample): the rewrite of a resolved pair is not
confined to whole-identifier occurrences.  `Ec2` resolves to `EC2`, and the
literal `import Ec2 → import EC2` replacement also fires inside
`import Ec2Thing`, so the longer identifier `Ec2Thing`, which merely
contains `Ec2` as a substring, is rewritten to `EC2Thing`. -/
theorem claim_C5_counterexample :
    validate_and_fix_imports ("from diagrams.aws.compute import Ec2\nimport Ec2Thing".toList) =
      ("from diagrams.aws.compute import EC2\nimport EC2Thing".toList) ∧
    isSubstr ("Ec2Thing".toList)
      ("from diagrams.aws.compute import Ec2\nimport Ec2Thing".toList) = true ∧
    isSubstr ("Ec2Thing".toList)
      (validate_and_fix_imports
        ("from diagrams.aws.compute import Ec2\nimport Ec2Thing".toList)) = false := by decide!

/-- Claim C5 (corrected): the word-boundary pass of a resolved pair's
rewrite really is whole-identifier only — text with no whole-word
occurrence of the original is left unchanged by it, so it never alters a
longer identifier merely containing the original — and when the text
contains no `import {original}` substring the applied fix is exactly that
word-boundary substitution.  The preceding plain replacement of
`import {original}`, however, can rewrite the original as a prefix of a
longer identifier (see the counterexample). -/
theorem claim_C5 (old new code : List Char) :
    (isSubstr (("import ".toList) ++ old) code = false →
      applyFix code (old, new) = wordReplace old new code) ∧
    (hasWordOccur old code = false → wordReplace old new code = code) := by
  constructor
  · intro h
    show wordReplace old new
        (replaceL (("import ".toList) ++ old) (("import ".toList) ++ new) code) =
      wordReplace old new code
    rw [replaceL_of_no_substr _ _ _ h]
  · intro h
    exact wordReplaceAux_of_no_occur old new code.length false code h

/-- Witness for C5 at a concrete input: `Ec2Thing()` has no `import Ec2`
substring and no whole-word `Ec2`, so applying the fix `(Ec2, EC2)` leaves
it unchanged. -/
theorem claim_C5_witness :
    applyFix ("Ec2Thing()".toList) (("Ec2".toList), ("EC2".toList)) = "Ec2Thing()".toList := by
  have h := claim_C5 ("Ec2".toList) ("EC2".toList) ("Ec2Thing()".toList)
  rw [h.1 (by decide), h.2 (by decide)]

/-- Claim C6 (confirmed): repair is a total function — in this model it
returns on every input — and when the scan of the corrected text is
unavailable (`ast.parse` raising `SyntaxError` in the source), the result
is exactly the input with the literal correction table and the pattern
correction rules applied: no symbol-level repair, and never less than the
two correction phases. -/
theorem claim_C6 (code : List Char)
    (h : pyScanL (applyImportPatterns (applyNamingFixes code)) = none) :
    validate_and_fix_imports code = applyImportPatterns (applyNamingFixes code) := by
  unfold validate_and_fix_imports
  rw [h]

/-- Witness for C6 at a concrete input: `from diagrams.aws.compute import`
(an import declaration with no names) does not parse, and repair returns
the corrected text — here the input itself. -/
theorem claim_C6_witness :
    pyScanL (applyImportPatterns (applyNamingFixes
        ("from diagrams.aws.compute import".toList))) = none ∧
    validate_and_fix_imports ("from diagrams.aws.compute import".toList) =
      applyImportPatterns (applyNamingFixes ("from diagrams.aws.compute import".toList)) :=
  ⟨by decide!, claim_C6 _ (by decide!)⟩

/-- Claim C7 (code bug): the correction tables are neither idempotent nor
confluent.  The literal table maps `Userss` to `Users` and maps `Users`
to `User`, so re-applying it to already-corrected text changes it further;
applying only the entry `StepFunction → StepFunctions` to `StepFunctions`
yields `StepFunctionss` while the full table yields `StepFunctions`, so a
subset of the entries produces a different final string; and the pattern
rule `StepFunctionss → StepFunctions` shows the same non-idempotence on
`StepFunctionsss`. -/
theorem claim_C7_bug :
    (applyNamingFixes ("Userss".toList) = "Users".toList ∧
     applyNamingFixes ("Users".toList) = "User".toList) ∧
    (replaceL ("StepFunction".toList) ("StepFunctions".toList) ("StepFunctions".toList) =
        "StepFunctionss".toList ∧
     applyNamingFixes ("StepFunctions".toList) = "StepFunctions".toList) ∧
    (applyImportPatterns ("StepFunctionsss".toList) = "StepFunctionss".toList ∧
     applyImportPatterns ("StepFunctionss".toList) = "StepFunctions".toList) := by decide!

/-- Claim C8 (code bug): the pattern correction rules carry no word-boundary
anchoring at all — each is a plain substring substitution.  The rule
`ApiGateway → APIGateway` fires inside the unrelated larger identifier
`MyApiGateway2` (which has no whole-word occurrence of `ApiGateway`, so an
anchored rule would leave it alone), rewriting it to `MyAPIGateway2`. -/
theorem claim_C8_bug :
    applyImportPatterns ("MyApiGateway2".toList) = "MyAPIGateway2".toList ∧
    isSubstr ("ApiGateway".toList) ("MyApiGateway2".toList) = true ∧
    hasWordOccur ("ApiGateway".toList) ("MyApiGateway2".toList) = false := by decide!

/-- Claim C9 (counterexample): an unresolvable symbol is not always left
byte-for-byte unchanged.  `Javvaq` resolves to nothing, but its sibling
`Javva` resolves to `Java`, and the literal `import Javva → import Java`
replacement fires on `import Javvaq`, corrupting the unresolved symbol to
`Javaq`. -/
theorem claim_C9_counterexample :
    find_similar_component ("Javvaq".toList)
      (["Python", "Java", "NodeJS", "Go", "Javascript"].map String.toList) = none ∧
    validate_and_fix_imports
      ("from diagrams.programming.language import Javvaq, Javva".toList) =
      ("from diagrams.programming.language import Javaq, Java".toList) ∧
    isSubstr ("Javvaq".toList)
      (validate_and_fix_imports
        ("from diagrams.programming.language import Javvaq, Javva".toList)) = false := by decide!

/-- Claim C9 (corrected): an unresolved symbol never keys a rewrite — every
applied fix comes from a successful resolution of its own original symbol
— and when no invalid import resolves (the fix list is empty), repair
returns the corrected text byte-for-byte, so in particular every
unresolved symbol is exactly as the correction phase left it.  Another
symbol's `import {old}` literal replacement can still corrupt an adjacent
unresolved symbol (see the counterexample). -/
theorem claim_C9 (code : List Char) (imps : List (List Char × List Char))
    (hscan : pyScanL (applyImportPatterns (applyNamingFixes code)) = some imps) :
    (∀ p ∈ collectFixes imps, ∃ m comps, registryL.lookup m = some comps ∧
        comps.contains p.1 = false ∧ find_similar_component p.1 comps = some p.2) ∧
    (collectFixes imps = [] →
      validate_and_fix_imports code = applyImportPatterns (applyNamingFixes code)) := by
  constructor
  · intro p hp
    rcases List.mem_filterMap.mp hp with ⟨mc, _, heq⟩
    split at heq
    · split at heq
      next comps hl =>
        split at heq
        · exact Option.noConfusion heq
        next hcont =>
          split at heq
          next r hf =>
            cases heq
            exact ⟨mc.1, comps, hl, by simpa using hcont, hf⟩
          next hf => exact Option.noConfusion heq
      next hl => exact Option.noConfusion heq
    · exact Option.noConfusion heq
  · intro hfix
    unfold validate_and_fix_imports
    simp only [hscan, hfix, List.foldl_nil]

/-- Witness for C9 at a concrete input: `Zzz9x` is unresolvable, it is the
only invalid import, and repair leaves the whole text unchanged. -/
theorem claim_C9_witness :
    validate_and_fix_imports ("from diagrams.aws.compute import Zzz9x".toList) =
      ("from diagrams.aws.compute import Zzz9x".toList) := by
  have h := claim_C9 ("from diagrams.aws.compute import Zzz9x".toList)
      [(("diagrams.aws.compute".toList), ("Zzz9x".toList))] (by decide!)
  rw [h.2 (by decide!)]
  decide!
